import Mathlib

set_option maxRecDepth 100000

/-!
# Verification of the mini chat API route handlers

Shallow embedding of the two `POST` route handlers of the repository:

* the mock variant (`app/api/chat/route.ts`, two revisions with identical
  logic): validates the `prompt` field, trims it, computes a word count and
  a character count, and returns a fixed-template reply;
* the provider variant (`app/api/chat/route.ts`, provider revision):
  validates `provider` and `messages`, checks the per-provider credential,
  issues one outbound chat-completion call and extracts the first text
  completion.

JavaScript strings are modelled as `List Char`; the nondeterministic
message id and timestamp are handler parameters; the outbound call result
is an oracle parameter (`Option` distinguishes a missing/null completion
from an empty string); a request body that fails JSON parsing is `none`.
-/

/-- JavaScript whitespace (the `WhiteSpace` and `LineTerminator` character
classes): the set matched by the regex class `\s` and stripped by
`String.prototype.trim`. -/
def jsIsWs (c : Char) : Bool :=
  c == ' ' || c == '\t' || c == '\n' || c == '\r' ||
  c.val == 0x0B || c.val == 0x0C || c.val == 0xA0 || c.val == 0x1680 ||
  (0x2000 ≤ c.val && c.val ≤ 0x200A) ||
  c.val == 0x2028 || c.val == 0x2029 || c.val == 0x202F || c.val == 0x205F ||
  c.val == 0x3000 || c.val == 0xFEFF

/-- Models `s.trim()`: strip leading and trailing JavaScript whitespace. -/
def jsTrim (l : List Char) : List Char :=
  (l.dropWhile jsIsWs).rdropWhile jsIsWs

/-- Auxiliary scanner for `wsTokens`: `acc` holds the current run of
non-whitespace characters, reversed. -/
def tokensAux : List Char → List Char → List (List Char)
  | [], acc => if acc = [] then [] else [acc.reverse]
  | c :: cs, acc =>
    if jsIsWs c then
      if acc = [] then tokensAux cs [] else acc.reverse :: tokensAux cs []
    else
      tokensAux cs (c :: acc)

/-- Models `s.split(/\s+/).filter(Boolean)`: the maximal runs of
non-whitespace characters of `s`, in order.  (The regex split cuts at every
maximal whitespace run, leaving an empty piece at a whitespace boundary at
either end, and `filter(Boolean)` then discards the empty pieces, so the
composite returns exactly the maximal non-whitespace runs.) -/
def wsTokens (l : List Char) : List (List Char) :=
  tokensAux l []

/-- Conversational role tag, `'user' | 'assistant' | 'system'`. -/
inductive Role where
  | user
  | assistant
  | system
  deriving DecidableEq

/-- The `ChatMessage` entity exchanged between client and server. -/
structure ChatMessage where
  id : List Char
  role : Role
  content : List Char
  createdAt : List Char
  deriving DecidableEq

/-- A `NextResponse.json(...)` value as observed by the client: the HTTP
status plus the JSON body, which is either `{ message: ChatMessage }` or
`{ error: string }`. -/
structure ApiResp where
  status : Nat
  message : Option ChatMessage
  error : Option (List Char)
  deriving DecidableEq

/-- Parsed request body of the mock variant, `{ messages, prompt }`.
`prompt = none` models a missing `prompt` field or one that is not a
string (`typeof body.prompt !== 'string'`). -/
structure MockBody where
  prompt : Option (List Char)
  messages : List ChatMessage
  deriving DecidableEq

/-- `prompt.split(/\s+/).filter(Boolean).length` of the mock handler. -/
def mockWordCount (prompt : List Char) : Nat :=
  (wsTokens prompt).length

/-- `prompt.length` of the mock handler. -/
def mockCharCount (prompt : List Char) : Nat :=
  prompt.length

/-- The template literal `replyContent` of the mock handler. -/
def mockContent (prompt : List Char) : List Char :=
  "You said: \"".data ++ prompt ++
  "\"\n\nHere is a simple analysis of your message:\n- Approximate word count: ".data ++
  (Nat.repr (mockWordCount prompt)).data ++
  "\n- Character count (including spaces): ".data ++
  (Nat.repr (mockCharCount prompt)).data ++
  "\n\nThis is mini, a mock AI assistant. Replace the logic in /app/api/chat/route.ts with a real LLM API call (OpenAI, Gemini, etc.) to get smarter responses.".data

/-- The `POST` handler of the mock variant.  `newId` and `createdAt` stand
for the nondeterministically generated message id and timestamp; `body` is
the parsed JSON body, `none` when `req.json()` throws (which the blanket
`catch` turns into a 500). -/
def mockPOST (newId createdAt : List Char) (body : Option MockBody) : ApiResp :=
  match body with
  | none => ⟨500, none, some "Internal server error".data⟩
  | some b =>
    match b.prompt with
    | none => ⟨400, none, some "Prompt is required".data⟩
    | some rawPrompt =>
      if (jsTrim rawPrompt).length = 0 then
        ⟨400, none, some "Prompt is required".data⟩
      else
        let prompt := jsTrim rawPrompt
        ⟨200, some ⟨newId, Role.assistant, mockContent prompt, createdAt⟩, none⟩

/-- Parsed request body of the provider variant, `{ provider, messages }`.
`provider = none` models a missing (falsy) `provider` field; any other
value is carried verbatim and compared against the two literals.
`messages = none` models a `messages` field that is absent or fails
`Array.isArray`. -/
structure ProviderBody where
  provider : Option (List Char)
  messages : Option (List ChatMessage)
  deriving DecidableEq

/-- The two environment-supplied credential values.  `none` models an
unset environment variable. -/
structure Env where
  OPENAI_API_KEY : Option (List Char)
  GOOGLE_API_KEY : Option (List Char)
  deriving DecidableEq

/-- `getOpenAIClient` returns `null` exactly when `OPENAI_API_KEY` is
unset or empty (the `if (!apiKey)` falsy test); `true` means a client
was constructed. -/
def getOpenAIClient (env : Env) : Bool :=
  match env.OPENAI_API_KEY with
  | none => false
  | some apiKey => if apiKey = [] then false else true

/-- `getGeminiClient` returns `null` exactly when `GOOGLE_API_KEY` is
unset or empty; `true` means a client was constructed. -/
def getGeminiClient (env : Env) : Bool :=
  match env.GOOGLE_API_KEY with
  | none => false
  | some apiKey => if apiKey = [] then false else true

/-- The `systemPrompt` constant of the provider handler. -/
def systemPrompt : List Char :=
  "You are mini, a helpful AI assistant. Be concise, clear, and friendly.".data

/-- `m.role.toUpperCase()` for the Gemini text parts. -/
def roleUpper : Role → List Char
  | Role.user => "USER".data
  | Role.assistant => "ASSISTANT".data
  | Role.system => "SYSTEM".data

/-- The payload of the single outbound chat-completion request, when one
is issued. -/
inductive OutboundCall where
  | openai (messages : List (Role × List Char))
  | gemini (parts : List (List Char))
  deriving DecidableEq

/-- The `openaiMessages` array: the system prompt followed by the request
messages, whose roles collapse to `user`/`assistant`
(`m.role === 'user' ? 'user' : 'assistant'`). -/
def openaiMessages (messages : List ChatMessage) : List (Role × List Char) :=
  (Role.system, systemPrompt) ::
    messages.map fun m =>
      (if m.role = Role.user then Role.user else Role.assistant, m.content)

/-- The Gemini `textParts` array: the system prompt followed by
`` `${m.role.toUpperCase()}: ${m.content}` `` for each request message. -/
def geminiTextParts (messages : List ChatMessage) : List (List Char) :=
  systemPrompt :: messages.map fun m => roleUpper m.role ++ ": ".data ++ m.content

/-- The fixed fallback completion text of the provider handler. -/
def fallbackContent : List Char :=
  "I could not generate a response.".data

/-- The `POST` handler of the provider variant.  `openaiContent` models
`completion.choices[0]?.message?.content` (`none` = missing or `null`)
and `geminiText` models `result.response.text()` for the outbound call
the handler would issue; `newId`/`createdAt` are the generated id and
timestamp; `body = none` models a JSON parse failure, which the blanket
`catch` turns into a 500.  The second component records the outbound
call that was issued, `none` when the handler returned without calling
the provider.  (The trailing `Unsupported provider` return of the source
is unreachable: the provider was already checked to be one of the two
literals.) -/
def providerPOST (env : Env) (openaiContent geminiText : Option (List Char))
    (newId createdAt : List Char) (body : Option ProviderBody) :
    ApiResp × Option OutboundCall :=
  match body with
  | none => (⟨500, none, some "Internal server error".data⟩, none)
  | some b =>
    if b.provider = some "openai".data ∨ b.provider = some "gemini".data then
      match b.messages with
      | none =>
        (⟨400, none, some "Messages array is required and cannot be empty".data⟩, none)
      | some messages =>
        if messages = [] then
          (⟨400, none, some "Messages array is required and cannot be empty".data⟩, none)
        else
          match messages.reverse.find? (fun m => m.role == Role.user) with
          | none =>
            (⟨400, none, some "At least one user message is required".data⟩, none)
          | some _ =>
            if b.provider = some "openai".data then
              if getOpenAIClient env then
                let content := openaiContent.getD fallbackContent
                (⟨200, some ⟨newId, Role.assistant, content, createdAt⟩, none⟩,
                  some (OutboundCall.openai (openaiMessages messages)))
              else
                (⟨500, none,
                  some "OPENAI_API_KEY is not configured on the server".data⟩, none)
            else
              if getGeminiClient env then
                let responseText := geminiText.getD fallbackContent
                (⟨200, some ⟨newId, Role.assistant, responseText, createdAt⟩, none⟩,
                  some (OutboundCall.gemini (geminiTextParts messages)))
              else
                (⟨500, none,
                  some "GOOGLE_API_KEY is not configured on the server".data⟩, none)
    else
      (⟨400, none, some "Invalid provider, must be \"openai\" or \"gemini\"".data⟩, none)

theorem tokensAux_all_ws (t acc : List Char) (h : ∀ c ∈ t, jsIsWs c) :
    tokensAux t acc = if acc = [] then [] else [acc.reverse] := by
  induction t generalizing acc with
  | nil => rfl
  | cons c t ih =>
    have hc : jsIsWs c = true := h c (List.mem_cons_self c t)
    have ht : ∀ x ∈ t, jsIsWs x := fun x hx => h x (List.mem_cons_of_mem c hx)
    have h0 : tokensAux t [] = [] := by simpa using ih [] ht
    by_cases ha : acc = [] <;> simp [tokensAux, hc, ha, h0]

theorem tokensAux_append_ws (l t acc : List Char) (h : ∀ c ∈ t, jsIsWs c) :
    tokensAux (l ++ t) acc = tokensAux l acc := by
  induction l generalizing acc with
  | nil => simpa [tokensAux] using tokensAux_all_ws t acc h
  | cons c l ih =>
    cases hc : jsIsWs c <;> by_cases ha : acc = [] <;>
      simp [tokensAux, hc, ha, ih]

theorem wsTokens_dropWhile (l : List Char) :
    wsTokens (l.dropWhile jsIsWs) = wsTokens l := by
  induction l with
  | nil => rfl
  | cons c l ih =>
    cases hc : jsIsWs c
    · simp [List.dropWhile_cons, hc]
    · rw [List.dropWhile_cons, if_pos (by simp [hc]), ih]
      simp [wsTokens, tokensAux, hc]

theorem rdropWhile_append_rtakeWhile (p : Char → Bool) (l : List Char) :
    l.rdropWhile p ++ l.rtakeWhile p = l := by
  rw [List.rdropWhile, List.rtakeWhile, ← List.reverse_append,
    List.takeWhile_append_dropWhile, List.reverse_reverse]

theorem wsTokens_jsTrim (l : List Char) :
    wsTokens (jsTrim l) = wsTokens l := by
  have h1 : wsTokens ((l.dropWhile jsIsWs).rdropWhile jsIsWs ++
      (l.dropWhile jsIsWs).rtakeWhile jsIsWs) =
      wsTokens ((l.dropWhile jsIsWs).rdropWhile jsIsWs) :=
    tokensAux_append_ws _ _ _ fun c hc => List.mem_rtakeWhile_imp hc
  have h2 := rdropWhile_append_rtakeWhile jsIsWs (l.dropWhile jsIsWs)
  simp only [jsTrim]
  rw [← wsTokens_dropWhile l]
  conv_rhs => rw [← h2]
  exact h1.symm

theorem tokensAux_length_pos (l acc : List Char)
    (h : (∃ c ∈ l, jsIsWs c = false) ∨ acc ≠ []) :
    1 ≤ (tokensAux l acc).length := by
  induction l generalizing acc with
  | nil =>
    rcases h with ⟨c, hc, _⟩ | ha
    · exact absurd hc (List.not_mem_nil c)
    · simp [tokensAux, ha]
  | cons c l ih =>
    cases hc : jsIsWs c
    · have := ih (c :: acc) (Or.inr (by simp))
      simpa [tokensAux, hc] using this
    · by_cases ha : acc = []
      · rcases h with ⟨d, hd, hdw⟩ | ha2
        · rcases List.mem_cons.mp hd with rfl | hd2
          · rw [hc] at hdw; cases hdw
          · have := ih [] (Or.inl ⟨d, hd2, hdw⟩)
            simpa [tokensAux, hc, ha] using this
        · exact absurd ha ha2
      · simp [tokensAux, hc, ha]

theorem jsTrim_eq_nil_iff (l : List Char) :
    jsTrim l = [] ↔ ∀ c ∈ l, jsIsWs c := by
  simp only [jsTrim, List.rdropWhile_eq_nil_iff]
  constructor
  · intro h c hc
    rw [← List.takeWhile_append_dropWhile (p := jsIsWs) (l := l)] at hc
    rcases List.mem_append.mp hc with h1 | h2
    · exact List.mem_takeWhile_imp h1
    · exact h c h2
  · intro h c hc
    exact h c ((List.dropWhile_suffix jsIsWs).sublist.subset hc)

theorem mockWordCount_jsTrim_pos (p : List Char) (h : jsTrim p ≠ []) :
    1 ≤ mockWordCount (jsTrim p) := by
  have hex : ∃ c ∈ p, jsIsWs c = false := by
    by_contra hall
    push_neg at hall
    refine h ((jsTrim_eq_nil_iff p).mpr fun c hc => ?_)
    have := hall c hc
    simpa using this
  unfold mockWordCount
  rw [wsTokens_jsTrim]
  exact tokensAux_length_pos p [] (Or.inl hex)

/-- A response body carries a non-empty error string. -/
def hasNonemptyError (r : ApiResp) : Bool :=
  match r.error with
  | none => false
  | some e => decide (e ≠ [])

/-- C1: for a well-formed mock request, the 200 response's `message.content`
embeds the quoted trimmed prompt after `You said: ` together with the
prompt's word count and character count: for prompt `"hello world"` the
word count is 2 and the character count 11, and for
`POST (prompt "abc", messages [])` the handler returns 200 with content
containing `You said: "abc"`, word count 1 and character count 3. -/
theorem C1_mock_response_stats (newId createdAt : List Char)
    (msgs : List ChatMessage) :
    (mockPOST newId createdAt (some ⟨some "hello world".data, msgs⟩) =
        ⟨200, some ⟨newId, Role.assistant, mockContent "hello world".data, createdAt⟩,
          none⟩ ∧
      mockWordCount "hello world".data = 2 ∧
      mockCharCount "hello world".data = 11 ∧
      ("You said: \"hello world\"".data).IsInfix (mockContent "hello world".data) ∧
      ("- Approximate word count: 2".data).IsInfix (mockContent "hello world".data) ∧
      ("- Character count (including spaces): 11".data).IsInfix
        (mockContent "hello world".data)) ∧
    (mockPOST newId createdAt (some ⟨some "abc".data, []⟩) =
        ⟨200, some ⟨newId, Role.assistant, mockContent "abc".data, createdAt⟩, none⟩ ∧
      ("You said: \"abc\"".data).IsInfix (mockContent "abc".data) ∧
      mockWordCount "abc".data = 1 ∧
      mockCharCount "abc".data = 3 ∧
      ("- Approximate word count: 1".data).IsInfix (mockContent "abc".data) ∧
      ("- Character count (including spaces): 3".data).IsInfix
        (mockContent "abc".data)) :=
  ⟨⟨rfl, by decide, by decide, by decide, by decide, by decide⟩,
    ⟨rfl, by decide, by decide, by decide, by decide, by decide⟩⟩

/-- C3 counterexample: a request whose body is not parseable JSON is
answered with status 500 via the blanket `catch`, not 400, in both the
provider variant and the mock variant. -/
theorem C3_counterexample :
    (providerPOST ⟨none, none⟩ none none "i".data "t".data none).1.status = 500 ∧
    ¬ (providerPOST ⟨none, none⟩ none none "i".data "t".data none).1.status = 400 ∧
    (mockPOST "i".data "t".data none).status = 500 ∧
    ¬ (mockPOST "i".data "t".data none).status = 400 := by
  decide

/-- C3 (amended): for every request whose body is not parseable JSON, both
handlers respond with status 500 and the generic `Internal server error`
message (the parse failure is caught by the blanket exception handler),
and no outbound call is attempted. -/
theorem C3_amended_parse_failure_500 (env : Env) (oc gc : Option (List Char))
    (newId createdAt : List Char) :
    providerPOST env oc gc newId createdAt none =
      (⟨500, none, some "Internal server error".data⟩, none) ∧
    mockPOST newId createdAt none = ⟨500, none, some "Internal server error".data⟩ :=
  ⟨rfl, rfl⟩

/-- C6 counterexample: for the accepted prompt `" abc "` the character
count embedded in the reply is `3`, the length of the trimmed prompt, while
the raw length of the submitted prompt string including its leading and
trailing whitespace is `5`. -/
theorem C6_counterexample :
    (mockPOST "i".data "t".data (some ⟨some " abc ".data, []⟩)).message =
      some ⟨"i".data, Role.assistant, mockContent (jsTrim " abc ".data), "t".data⟩ ∧
    mockCharCount (jsTrim " abc ".data) = 3 ∧
    (" abc ".data).length = 5 ∧
    mockCharCount (jsTrim " abc ".data) ≠ (" abc ".data).length ∧
    ("- Character count (including spaces): 3".data).IsInfix
      (mockContent (jsTrim " abc ".data)) := by
  decide

/-- C6 (amended): for every prompt accepted by the mock responder, the
embedded word count equals the number of whitespace-delimited tokens of the
submitted prompt, and the embedded character count equals the length of the
*trimmed* prompt — interior spaces counted, leading and trailing whitespace
excluded. -/
theorem C6_amended_counts (newId createdAt rawPrompt : List Char)
    (msgs : List ChatMessage) (h : jsTrim rawPrompt ≠ []) :
    mockPOST newId createdAt (some ⟨some rawPrompt, msgs⟩) =
      ⟨200, some ⟨newId, Role.assistant, mockContent (jsTrim rawPrompt), createdAt⟩,
        none⟩ ∧
    mockWordCount (jsTrim rawPrompt) = (wsTokens rawPrompt).length ∧
    mockCharCount (jsTrim rawPrompt) = (jsTrim rawPrompt).length := by
  refine ⟨?_, ?_, rfl⟩
  · have hlen : ¬ (jsTrim rawPrompt).length = 0 := by
      simpa [List.length_eq_zero] using h
    simp [mockPOST, hlen]
  · unfold mockWordCount
    rw [wsTokens_jsTrim]

/-- C6 witness: the amended statement at the concrete prompt `" a b "`,
whose trimmed form is `"a b"`: word count 2, character count 3. -/
theorem C6_amended_counts_witness :
    mockPOST "i".data "t".data (some ⟨some " a b ".data, []⟩) =
      ⟨200, some ⟨"i".data, Role.assistant, mockContent (jsTrim " a b ".data),
        "t".data⟩, none⟩ ∧
    mockWordCount (jsTrim " a b ".data) = (wsTokens " a b ".data).length ∧
    mockCharCount (jsTrim " a b ".data) = (jsTrim " a b ".data).length :=
  C6_amended_counts "i".data "t".data " a b ".data [] (by decide)

/-- C7: the mock path is a pure deterministic function of its input prompt:
two invocations with the same `prompt` field and arbitrary generated ids,
timestamps and `messages` arrays produce responses whose message content
fields (and statuses and errors) are identical. -/
theorem C7_mock_deterministic (id1 id2 ts1 ts2 : List Char)
    (msgs1 msgs2 : List ChatMessage) (p : Option (List Char)) :
    (mockPOST id1 ts1 (some ⟨p, msgs1⟩)).message.map ChatMessage.content =
      (mockPOST id2 ts2 (some ⟨p, msgs2⟩)).message.map ChatMessage.content ∧
    (mockPOST id1 ts1 (some ⟨p, msgs1⟩)).status =
      (mockPOST id2 ts2 (some ⟨p, msgs2⟩)).status ∧
    (mockPOST id1 ts1 (some ⟨p, msgs1⟩)).error =
      (mockPOST id2 ts2 (some ⟨p, msgs2⟩)).error := by
  cases p with
  | none => exact ⟨rfl, rfl, rfl⟩
  | some raw =>
    by_cases h : (jsTrim raw).length = 0 <;>
      refine ⟨?_, ?_, ?_⟩ <;> simp [mockPOST, h]

/-- C2: in the provider-variant dispatcher, every request body whose
`messages` field is missing or not an array, or whose messages array
contains no entry with role `user` (in particular the empty array), is
answered with status 400 and a structured non-empty error object,
whatever the rest of the body holds. -/
theorem C2_invalid_messages_400 (env : Env) (oc gc : Option (List Char))
    (newId createdAt : List Char) (b : ProviderBody)
    (h : b.messages = none ∨
      ∃ l, b.messages = some l ∧ ∀ m ∈ l, m.role ≠ Role.user) :
    (providerPOST env oc gc newId createdAt (some b)).1.status = 400 ∧
    hasNonemptyError (providerPOST env oc gc newId createdAt (some b)).1 = true := by
  by_cases hp : b.provider = some "openai".data ∨ b.provider = some "gemini".data
  · rcases h with hn | ⟨l, hl, hu⟩
    · have hr : providerPOST env oc gc newId createdAt (some b) =
          (⟨400, none, some "Messages array is required and cannot be empty".data⟩,
            none) := by
        simp [providerPOST, hp, hn]
      rw [hr]; decide
    · by_cases hle : l = []
      · subst hle
        have hr : providerPOST env oc gc newId createdAt (some b) =
            (⟨400, none, some "Messages array is required and cannot be empty".data⟩,
              none) := by
          simp [providerPOST, hp, hl]
        rw [hr]; decide
      · have hfind : l.reverse.find? (fun m => m.role == Role.user) = none := by
          rw [List.find?_eq_none]
          intro m hm
          simpa using hu m (List.mem_reverse.mp hm)
        have hr : providerPOST env oc gc newId createdAt (some b) =
            (⟨400, none, some "At least one user message is required".data⟩, none) := by
          simp [providerPOST, hp, hl, hle, hfind]
        rw [hr]; decide
  · have hr : providerPOST env oc gc newId createdAt (some b) =
        (⟨400, none,
          some "Invalid provider, must be \"openai\" or \"gemini\"".data⟩, none) := by
      simp [providerPOST, hp]
    rw [hr]; decide

/-- C2 witness: the theorem applied to a concrete body with a valid
provider and an empty messages array. -/
theorem C2_invalid_messages_400_witness :
    (providerPOST ⟨none, none⟩ none none "i".data "t".data
        (some ⟨some "openai".data, some []⟩)).1.status = 400 ∧
    hasNonemptyError (providerPOST ⟨none, none⟩ none none "i".data "t".data
        (some ⟨some "openai".data, some []⟩)).1 = true :=
  C2_invalid_messages_400 ⟨none, none⟩ none none "i".data "t".data
    ⟨some "openai".data, some []⟩ (Or.inr ⟨[], rfl, by decide⟩)

/-- C4: a request missing a required field — `provider` or `messages` in
the provider variant, `prompt` in the mock variant — is answered with
status 400 and a non-empty error string. -/
theorem C4_missing_field_400 :
    (∀ (env : Env) (oc gc : Option (List Char)) (newId createdAt : List Char)
        (b : ProviderBody), b.provider = none →
      (providerPOST env oc gc newId createdAt (some b)).1.status = 400 ∧
      hasNonemptyError (providerPOST env oc gc newId createdAt (some b)).1 = true) ∧
    (∀ (env : Env) (oc gc : Option (List Char)) (newId createdAt : List Char)
        (b : ProviderBody), b.messages = none →
      (providerPOST env oc gc newId createdAt (some b)).1.status = 400 ∧
      hasNonemptyError (providerPOST env oc gc newId createdAt (some b)).1 = true) ∧
    (∀ (newId createdAt : List Char) (b : MockBody), b.prompt = none →
      (mockPOST newId createdAt (some b)).status = 400 ∧
      hasNonemptyError (mockPOST newId createdAt (some b)) = true) := by
  refine ⟨?_, ?_, ?_⟩
  · intro env oc gc newId createdAt b hb
    have hp : ¬ (b.provider = some "openai".data ∨
        b.provider = some "gemini".data) := by
      simp [hb]
    have hr : providerPOST env oc gc newId createdAt (some b) =
        (⟨400, none,
          some "Invalid provider, must be \"openai\" or \"gemini\"".data⟩, none) := by
      simp [providerPOST, hp]
    rw [hr]; decide
  · intro env oc gc newId createdAt b hb
    by_cases hp : b.provider = some "openai".data ∨ b.provider = some "gemini".data
    · have hr : providerPOST env oc gc newId createdAt (some b) =
          (⟨400, none, some "Messages array is required and cannot be empty".data⟩,
            none) := by
        simp [providerPOST, hp, hb]
      rw [hr]; decide
    · have hr : providerPOST env oc gc newId createdAt (some b) =
          (⟨400, none,
            some "Invalid provider, must be \"openai\" or \"gemini\"".data⟩, none) := by
        simp [providerPOST, hp]
      rw [hr]; decide
  · intro newId createdAt b hb
    have hr : mockPOST newId createdAt (some b) =
        ⟨400, none, some "Prompt is required".data⟩ := by
      simp [mockPOST, hb]
    rw [hr]; decide

/-- C4 witness: the three parts of the theorem applied to concrete bodies
missing `provider`, `messages` and `prompt` respectively. -/
theorem C4_missing_field_400_witness :
    ((providerPOST ⟨none, none⟩ none none "i".data "t".data
        (some ⟨none, some []⟩)).1.status = 400 ∧
      hasNonemptyError (providerPOST ⟨none, none⟩ none none "i".data "t".data
        (some ⟨none, some []⟩)).1 = true) ∧
    ((providerPOST ⟨none, none⟩ none none "i".data "t".data
        (some ⟨some "openai".data, none⟩)).1.status = 400 ∧
      hasNonemptyError (providerPOST ⟨none, none⟩ none none "i".data "t".data
        (some ⟨some "openai".data, none⟩)).1 = true) ∧
    ((mockPOST "i".data "t".data (some ⟨none, []⟩)).status = 400 ∧
      hasNonemptyError (mockPOST "i".data "t".data (some ⟨none, []⟩)) = true) :=
  ⟨C4_missing_field_400.1 ⟨none, none⟩ none none "i".data "t".data
      ⟨none, some []⟩ rfl,
    C4_missing_field_400.2.1 ⟨none, none⟩ none none "i".data "t".data
      ⟨some "openai".data, none⟩ rfl,
    C4_missing_field_400.2.2 "i".data "t".data ⟨none, []⟩ rfl⟩

/-- C5: when the credential environment value for the selected provider is
absent (or empty, hence falsy), the provider handler answers 500 with a
descriptive error and issues no outbound API call, for every list of
messages whose contents pass validation (non-empty, with a `user` entry),
whatever content the individual messages carry. -/
theorem C5_missing_credential_500 (env : Env) (oc gc : Option (List Char))
    (newId createdAt : List Char) (msgs : List ChatMessage)
    (hne : msgs ≠ []) (huser : ∃ m ∈ msgs, m.role = Role.user) :
    (getOpenAIClient env = false →
      providerPOST env oc gc newId createdAt
          (some ⟨some "openai".data, some msgs⟩) =
        (⟨500, none, some "OPENAI_API_KEY is not configured on the server".data⟩,
          none)) ∧
    (getGeminiClient env = false →
      providerPOST env oc gc newId createdAt
          (some ⟨some "gemini".data, some msgs⟩) =
        (⟨500, none, some "GOOGLE_API_KEY is not configured on the server".data⟩,
          none)) := by
  obtain ⟨m0, hm0, hrole⟩ := huser
  have hfind : msgs.reverse.find? (fun m => m.role == Role.user) ≠ none := by
    rw [Ne, List.find?_eq_none]
    push_neg
    exact ⟨m0, List.mem_reverse.mpr hm0, by simp [hrole]⟩
  obtain ⟨u, hu⟩ := Option.ne_none_iff_exists.mp hfind
  constructor <;> intro hkey <;> simp [providerPOST, hne, ← hu, hkey]

/-- C5 witness: the theorem applied to the empty environment and a
one-element message list with role `user`. -/
theorem C5_missing_credential_500_witness :
    providerPOST ⟨none, none⟩ none none "i".data "t".data
        (some ⟨some "openai".data,
          some [⟨"1".data, Role.user, "q".data, "t0".data⟩]⟩) =
      (⟨500, none, some "OPENAI_API_KEY is not configured on the server".data⟩,
        none) :=
  (C5_missing_credential_500 ⟨none, none⟩ none none "i".data "t".data
      [⟨"1".data, Role.user, "q".data, "t0".data⟩] (by decide) (by decide)).1 rfl

/-- C8 counterexample: with the credential configured and the provider
returning the empty string as first completion, the 200 response carries
the empty string as `message.content`, not the fixed fallback text. -/
theorem C8_counterexample :
    (providerPOST ⟨some "k".data, some "k".data⟩ (some []) none "i".data "t".data
        (some ⟨some "openai".data,
          some [⟨"1".data, Role.user, "q".data, "t0".data⟩]⟩)).1.message.map
      ChatMessage.content = some [] ∧
    ([] : List Char) ≠ fallbackContent ∧
    (providerPOST ⟨some "k".data, some "k".data⟩ (some []) none "i".data "t".data
        (some ⟨some "openai".data,
          some [⟨"1".data, Role.user, "q".data, "t0".data⟩]⟩)).1.status = 200 := by
  decide

/-- C8 (amended): the fixed fallback string `I could not generate a
response.` is substituted exactly when the extracted completion is missing
(`undefined` or `null`, modelled as `none`); an empty-string completion is
returned unchanged.  The 200 response content equals `Option.getD` of the
extracted completion with the fallback as default, for both providers. -/
theorem C8_amended_fallback (env : Env) (oc gc : Option (List Char))
    (newId createdAt : List Char) (msgs : List ChatMessage)
    (hne : msgs ≠ []) (huser : ∃ m ∈ msgs, m.role = Role.user) :
    (getOpenAIClient env = true →
      (providerPOST env oc gc newId createdAt
          (some ⟨some "openai".data, some msgs⟩)).1.message.map
        ChatMessage.content = some (oc.getD fallbackContent)) ∧
    (getGeminiClient env = true →
      (providerPOST env oc gc newId createdAt
          (some ⟨some "gemini".data, some msgs⟩)).1.message.map
        ChatMessage.content = some (gc.getD fallbackContent)) ∧
    (oc = none → oc.getD fallbackContent = fallbackContent) ∧
    (∀ s, oc = some s → oc.getD fallbackContent = s) := by
  obtain ⟨m0, hm0, hrole⟩ := huser
  have hfind : msgs.reverse.find? (fun m => m.role == Role.user) ≠ none := by
    rw [Ne, List.find?_eq_none]
    push_neg
    exact ⟨m0, List.mem_reverse.mpr hm0, by simp [hrole]⟩
  obtain ⟨u, hu⟩ := Option.ne_none_iff_exists.mp hfind
  refine ⟨?_, ?_, ?_, ?_⟩
  · intro hkey
    simp [providerPOST, hne, ← hu, hkey]
  · intro hkey
    simp [providerPOST, hne, ← hu, hkey]
  · intro h
    simp [h]
  · intro s h
    simp [h]

/-- C8 witness: the amended statement with both credentials configured and
a missing (`none`) completion, for a one-element `user` message list. -/
theorem C8_amended_fallback_witness :
    (providerPOST ⟨some "k".data, some "k".data⟩ none none "i".data "t".data
        (some ⟨some "openai".data,
          some [⟨"1".data, Role.user, "q".data, "t0".data⟩]⟩)).1.message.map
      ChatMessage.content = some ((none : Option (List Char)).getD fallbackContent) :=
  (C8_amended_fallback ⟨some "k".data, some "k".data⟩ none none "i".data "t".data
      [⟨"1".data, Role.user, "q".data, "t0".data⟩] (by decide) (by decide)).1 rfl

/-- C9: every 200 response of either variant carries a message whose role
is `assistant`. -/
theorem C9_success_role_assistant :
    (∀ (env : Env) (oc gc : Option (List Char)) (newId createdAt : List Char)
        (body : Option ProviderBody),
      (providerPOST env oc gc newId createdAt body).1.status = 200 →
      ∃ m, (providerPOST env oc gc newId createdAt body).1.message = some m ∧
        m.role = Role.assistant) ∧
    (∀ (newId createdAt : List Char) (body : Option MockBody),
      (mockPOST newId createdAt body).status = 200 →
      ∃ m, (mockPOST newId createdAt body).message = some m ∧
        m.role = Role.assistant) := by
  constructor
  · intro env oc gc newId createdAt body
    simp only [providerPOST]
    repeat' split
    all_goals intro h
    all_goals first
      | exact absurd h (by decide)
      | exact ⟨_, rfl, rfl⟩
  · intro newId createdAt body
    simp only [mockPOST]
    repeat' split
    all_goals intro h
    all_goals first
      | exact absurd h (by decide)
      | exact ⟨_, rfl, rfl⟩

/-- C9 witness: both parts of the theorem applied at concrete valid
requests that yield a 200 response. -/
theorem C9_success_role_assistant_witness :
    (∃ m, (providerPOST ⟨some "k".data, none⟩ (some "hi".data) none "i".data
        "t".data (some ⟨some "openai".data,
          some [⟨"1".data, Role.user, "q".data, "t0".data⟩]⟩)).1.message =
      some m ∧ m.role = Role.assistant) ∧
    (∃ m, (mockPOST "i".data "t".data (some ⟨some "abc".data, []⟩)).message =
      some m ∧ m.role = Role.assistant) :=
  ⟨C9_success_role_assistant.1 ⟨some "k".data, none⟩ (some "hi".data) none
      "i".data "t".data (some ⟨some "openai".data,
        some [⟨"1".data, Role.user, "q".data, "t0".data⟩]⟩) (by decide),
    C9_success_role_assistant.2 "i".data "t".data
      (some ⟨some "abc".data, []⟩) (by decide)⟩

/-- C10: a prompt consisting only of whitespace characters (non-empty but
blank after trimming) is rejected with status 400 and the error
`Prompt is required`, exactly as if the prompt were absent; and every 200
mock response embeds a word count of at least 1. -/
theorem C10_blank_prompt_rejected :
    (∀ (newId createdAt p : List Char) (msgs msgs2 : List ChatMessage),
      p ≠ [] → (∀ c ∈ p, jsIsWs c) →
      mockPOST newId createdAt (some ⟨some p, msgs⟩) =
        ⟨400, none, some "Prompt is required".data⟩ ∧
      mockPOST newId createdAt (some ⟨some p, msgs⟩) =
        mockPOST newId createdAt (some ⟨none, msgs2⟩)) ∧
    (∀ (newId createdAt : List Char) (body : Option MockBody) (m : ChatMessage),
      (mockPOST newId createdAt body).status = 200 →
      (mockPOST newId createdAt body).message = some m →
      ∃ p, m.content = mockContent p ∧ 1 ≤ mockWordCount p) := by
  constructor
  · intro newId createdAt p msgs msgs2 hne hws
    have h0 : (jsTrim p).length = 0 := by
      simp [List.length_eq_zero, (jsTrim_eq_nil_iff p).mpr hws]
    constructor <;> simp [mockPOST, h0]
  · intro newId createdAt body m hs hm
    match body with
    | none => simp [mockPOST] at hs
    | some ⟨none, msgs⟩ => simp [mockPOST] at hs
    | some ⟨some raw, msgs⟩ =>
      by_cases h0 : (jsTrim raw).length = 0
      · simp [mockPOST, h0] at hs
      · have hmsg : (mockPOST newId createdAt (some ⟨some raw, msgs⟩)).message =
            some ⟨newId, Role.assistant, mockContent (jsTrim raw), createdAt⟩ := by
          simp [mockPOST, h0]
        rw [hmsg] at hm
        have hm2 : m = ⟨newId, Role.assistant, mockContent (jsTrim raw), createdAt⟩ := by
          simpa [eq_comm] using hm
        subst hm2
        refine ⟨jsTrim raw, rfl, mockWordCount_jsTrim_pos raw ?_⟩
        simpa [List.length_eq_zero] using h0

/-- C10 witness: the theorem applied to a concrete all-whitespace prompt
and to a concrete 200 response. -/
theorem C10_blank_prompt_rejected_witness :
    (mockPOST "i".data "t".data (some ⟨some "  ".data, []⟩) =
        ⟨400, none, some "Prompt is required".data⟩ ∧
      mockPOST "i".data "t".data (some ⟨some "  ".data, []⟩) =
        mockPOST "i".data "t".data (some ⟨none, []⟩)) ∧
    (∃ p, (⟨"i".data, Role.assistant, mockContent (jsTrim "abc".data),
        "t".data⟩ : ChatMessage).content = mockContent p ∧ 1 ≤ mockWordCount p) :=
  ⟨C10_blank_prompt_rejected.1 "i".data "t".data "  ".data [] [] (by decide)
      (by decide),
    C10_blank_prompt_rejected.2 "i".data "t".data (some ⟨some "abc".data, []⟩)
      ⟨"i".data, Role.assistant, mockContent (jsTrim "abc".data), "t".data⟩
      (by decide) (by decide)⟩

